import Mathlib

/-!
Verification development for the LifeOS backend core
(`apps/backend/core/ingestion.py`, `core/database.py`, `core/retrieval.py`,
`core/embedding.py`, `agents/insight_agent.py`).

Python strings are modelled as lists of characters (`Str`), so that the
string operations the code performs (`strip`, slicing `[:n]`, substring
membership `in`) are executable Lean functions.  Timestamps that the code
compares or subtracts (`datetime` values and their ISO renderings, which
order lexicographically exactly as they order chronologically) are modelled
as integers counting days; timestamps that the code only slices textually
(`timestamp[:10]` in the insight agent) are modelled as `Str`.
Floating-point numbers are modelled as rationals, except where the code
applies `math.exp`, which is modelled with `Real.exp`.
-/

namespace LifeOS

/-- Python strings, modelled as lists of characters. -/
abbrev Str := List Char

/-- Python `str.strip()`: drop whitespace from both ends. -/
def pyStrip (s : Str) : Str :=
  ((s.dropWhile Char.isWhitespace).reverse.dropWhile Char.isWhitespace).reverse

/-- Python `needle in haystack` on strings: substring containment. -/
def pyContains (needle : Str) : Str → Bool
  | [] => needle.isPrefixOf []
  | c :: tl => needle.isPrefixOf (c :: tl) || pyContains needle tl

/-! ## Data model (`core/models.py`)

`ContextEvent` carries the fields the sync pipeline reads: the stable id,
the source and event-type strings, title and content (concatenated and
truncated to build the embedding input), the activity timestamp and the
embedding vector.  Fields the pipeline never inspects (summary, entities,
tags, metadata) are omitted. -/

structure ContextEvent where
  id : String
  source : String
  event_type : Str
  title : Str
  content : Str
  timestamp : ℤ
  embedding : List ℚ
deriving DecidableEq

/-- Dimension of the stored vectors (`EMBEDDING_DIM = 768` in `core/database.py`). -/
def EMBEDDING_DIM : ℕ := 768

/-! ## Store state (`core/database.py`)

The LanceDB `events` table is a list of rows in insertion order; the SQLite
`sync_cursors` table is an association list from plugin name to the
last-successful-sync timestamp. -/

structure SyncState where
  store : List ContextEvent
  cursors : List (String × ℤ)
deriving DecidableEq

/-- `Database.insert_event`: `events_table.add(data)` appends one row to the
LanceDB table (there is no delete or merge step), with an empty embedding
replaced by the 768-dimensional zero vector
(`event.embedding if event.embedding else [0.0] * EMBEDDING_DIM`). -/
def insert_event (st : SyncState) (e : ContextEvent) : SyncState :=
  { st with
    store := st.store ++
      [{ e with embedding := if e.embedding = [] then List.replicate EMBEDDING_DIM 0 else e.embedding }] }

/-- `Database.event_exists`: does some stored row carry this id? -/
def event_exists (st : SyncState) (eid : String) : Bool :=
  st.store.any (fun e => e.id = eid)

/-- `Database.get_last_sync`: look the plugin's cursor up in `sync_cursors`. -/
def get_last_sync (st : SyncState) (plugin_name : String) : Option ℤ :=
  st.cursors.lookup plugin_name

/-- `Database.update_sync_cursor`: `INSERT OR REPLACE` on the primary key
`plugin_name`, so the plugin's previous row (if any) is replaced. -/
def update_sync_cursor (st : SyncState) (plugin_name : String) (ts : ℤ) : SyncState :=
  { st with cursors := (plugin_name, ts) :: st.cursors.filter (fun p => p.1 ≠ plugin_name) }

/-- A connector (`PluginBase`): `fetch_events(since)` returns the new events
or raises, modelled with `Except`. -/
structure Plugin where
  fetch_events : ℤ → Except String (List ContextEvent)

/-- `IngestionPipeline._sync_plugin`.  The whole body runs inside
`try ... except Exception: return 0`; the only step modelled as fallible is
the connector fetch, which is the failure mode the spec discusses.  The
batch embedder is passed in (`EmbeddingService.embed_batch`), as is `now`
(the value of `datetime.now()` for this attempt).  Returns the new state and
the count the attempt contributes to the aggregate. -/
def sync_plugin (embed_batch : List Str → List (List ℚ)) (now : ℤ)
    (st : SyncState) (plugin_name : String) (plugin : Plugin) : SyncState × ℕ :=
  match plugin.fetch_events ((get_last_sync st plugin_name).getD (now - 30)) with
  | .error _ => (st, 0)
  | .ok events =>
    if events = [] then (st, 0)
    else
      let new_events := events.filter (fun e => !event_exists st e.id)
      if new_events = [] then (update_sync_cursor st plugin_name now, 0)
      else
        let texts := new_events.map (fun e => (e.title ++ [' '] ++ e.content).take 1000)
        let embeddings := embed_batch texts
        let st1 := (new_events.zip embeddings).foldl
          (fun s p => insert_event s { p.1 with embedding := p.2 }) st
        (update_sync_cursor st1 plugin_name now, new_events.length)

/-- `IngestionPipeline._sync_all_plugins`: one unit of work per enabled
plugin.  The `asyncio.gather` fan-out is modelled as a left-to-right fold;
within one attempt the steps are strictly sequential, and distinct plugins
touch distinct cursor rows.  Returns the final state and the per-plugin
counts (the run's aggregate is their sum). -/
def sync_all_plugins (embed_batch : List Str → List (List ℚ)) (now : ℤ)
    (st : SyncState) : List (String × Plugin) → SyncState × List ℕ
  | [] => (st, [])
  | (name, p) :: tl =>
    let r := sync_plugin embed_batch now st name p
    let rest := sync_all_plugins embed_batch now r.1 tl
    (rest.1, r.2 :: rest.2)

/-- One scheduled or on-demand sync attempt against a single connector: the
fetch behaviour, the batch embedder, and the wall-clock time of the attempt. -/
structure Attempt where
  plugin : Plugin
  embed_batch : List Str → List (List ℚ)
  now : ℤ

/-- Run a sequence of sync attempts of one connector. -/
def run_attempts (plugin_name : String) (st : SyncState) : List Attempt → SyncState
  | [] => st
  | a :: tl => run_attempts plugin_name (sync_plugin a.embed_batch a.now st plugin_name a.plugin).1 tl

/-- The stored cursor of one connector observed before each attempt and
after the last one. -/
def cursor_trace (plugin_name : String) (st : SyncState) : List Attempt → List (Option ℤ)
  | [] => [get_last_sync st plugin_name]
  | a :: tl =>
    get_last_sync st plugin_name ::
      cursor_trace plugin_name (sync_plugin a.embed_batch a.now st plugin_name a.plugin).1 tl

/-- Order on optional cursor values: an absent cursor is below everything,
a present cursor must not decrease. -/
def cursorLe (a b : Option ℤ) : Prop :=
  ∀ x, a = some x → ∃ y, b = some y ∧ x ≤ y

/-! ## Retrieval (`core/retrieval.py`)

A row as the retriever sees it: a dict coming back from LanceDB.  Stored
rows always carry a timestamp (`insert_event` always writes
`event.timestamp.isoformat()`, and `datetime.fromisoformat` of such a string
never raises, so the `except` branch around the parse is dead); rows from
`vector_search` additionally carry a `_distance` key, rows from
`get_recent_events` do not, hence `distance : Option ℚ`. -/

structure Row where
  id : String
  source : String
  timestamp : ℤ
  vector : List ℚ
  distance : Option ℚ
deriving DecidableEq

/-- `Database.get_recent_events`: keep rows with
`timestamp >= (now - timedelta(days)).isoformat()` (ISO strings compare
lexicographically exactly as chronologically), take at most `limit` of them
in table order (`.limit(limit)` applies before the Python-side sort), then
sort by timestamp descending (`sorted(..., reverse=True)`, a stable sort). -/
def get_recent_events (store : List Row) (now : ℤ) (days : ℤ) (limit : ℕ) : List Row :=
  List.insertionSort (fun a b => b.timestamp ≤ a.timestamp)
    ((store.filter (fun r => now - days ≤ r.timestamp)).take limit)

/-- The per-candidate semantic score in `ContextRetriever.retrieve`:
`1.0 - (r.get("_distance", 0.5) or 0.5)`.  The Python `or` replaces not only
an absent key but also a *falsy* value with `0.5`, so a distance of exactly
`0` is scored as if it were `0.5`. -/
def semantic_score (distance : Option ℚ) : ℚ :=
  1 - (match distance with
       | none => 1/2
       | some x => if x = 0 then 1/2 else x)

/-- `max(0, (now - ts).days)` in `retrieve`. -/
def days_ago (now ts : ℤ) : ℤ := max 0 (now - ts)

/-- The temporal decay weight `math.exp(-0.05 * days_ago)`. -/
noncomputable def time_weight (now ts : ℤ) : ℝ :=
  Real.exp (-(0.05 : ℝ) * (days_ago now ts : ℝ))

/-- The blended ranking score
`semantic_score * 0.7 + time_weight * 0.3` of one candidate row. -/
noncomputable def final_score (now : ℤ) (r : Row) : ℝ :=
  (semantic_score r.distance : ℝ) * 0.7 + time_weight now r.timestamp * 0.3

/-- `ContextRetriever.retrieve`.  The store and the external capabilities
are passed explicitly: `store` backs `Database.get_recent_events`,
`vector_search` is the LanceDB ANN query (`Database.vector_search`), and
`embed` is `EmbeddingService.embed` for the query text.  `now` is
`datetime.now()`.  Steps: blank query → pure-recency fallback; otherwise
embed the query, over-fetch `min(50, limit * 5)` candidates, fall back to
recency (window `days_filter or 7`) when the search is empty, score each
candidate, apply the (truthy) day and source filters, sort by score
descending, truncate to `limit`, and strip the internal `_distance` and
`vector` fields. -/
noncomputable def retrieve (store : List Row)
    (vector_search : List ℚ → ℕ → List Row) (embed_query : Str → List ℚ)
    (now : ℤ) (query : Str) (limit : ℕ)
    (days_filter : Option ℤ) (source_filter : Option String) : List Row :=
  if pyStrip query = [] then get_recent_events store now 7 limit
  else
    let query_embedding := embed_query query
    let raw_results := vector_search query_embedding (min 50 (limit * 5))
    if raw_results = [] then
      get_recent_events store now
        (match days_filter with | some d => if d = 0 then 7 else d | none => 7) limit
    else
      let scored := raw_results.map (fun r => (r, final_score now r))
      let scored := match days_filter with
        | some d => if d = 0 then scored else scored.filter (fun p => now - d ≤ p.1.timestamp)
        | none => scored
      let scored := match source_filter with
        | some s => if s = "" then scored else scored.filter (fun p => p.1.source = s)
        | none => scored
      let sorted := List.insertionSort (fun a b : Row × ℝ => b.2 ≤ a.2) scored
      (sorted.take limit).map (fun p => { p.1 with distance := none, vector := [] })

/-! ## Insight agent (`agents/insight_agent.py`)

A row as the insight agent sees it (a dict from `get_recent_events`): here
the timestamp is kept as a string, because the agent only slices it
(`timestamp[:10]`, the calendar day). -/

structure DbEvent where
  id : String
  source : String
  event_type : Str
  content : Str
  title : Str
  timestamp : Str
  vector : List ℚ
deriving DecidableEq

/-- A `Finding` (`Insight` in `core/models.py`), with the fields the
analyzers populate.  The randomly generated `id`, the creation time and the
`dismissed` flag are supplied elsewhere and are not part of what an
analyzer decides. -/
structure Insight where
  insight_type : String
  title : Str
  description : Str
  evidence : List Str
  suggested_action : Str
  confidence : ℚ
deriving DecidableEq

/-- The filter in `_detect_repeated_thoughts`:
`vec and len(vec) > 0 and any(v != 0 for v in vec)` — the vector exists,
is non-empty, and has some non-zero entry. -/
def has_real_vector (e : DbEvent) : Bool :=
  !e.vector.isEmpty && e.vector.any (fun v => v != 0)

/-- The merge rule of the greedy clustering in `_detect_repeated_thoughts`:
similarity strictly above `0.82` and the pair differs by source or by
calendar day (`timestamp[:10]`).  The similarity function (the numpy cosine
of the two stored float vectors) is passed in as a rational-valued
parameter, since the source computes it in floating point. -/
def merge_condition (sim : DbEvent → DbEvent → ℚ) (e1 e2 : DbEvent) : Bool :=
  decide (82/100 < sim e1 e2) &&
    (decide (e1.source ≠ e2.source) || decide (e1.timestamp.take 10 ≠ e2.timestamp.take 10))

/-- The inner loop of the clustering: scan the later records (with their
indices), skip records already used, and merge a record into the current
cluster exactly when `merge_condition` holds, marking it used.  Returns the
merged records in scan order together with the updated used set. -/
def scan_cluster (sim : DbEvent → DbEvent → ℚ) (e1 : DbEvent) :
    List (ℕ × DbEvent) → List ℕ → List DbEvent × List ℕ
  | [], used => ([], used)
  | (j, e2) :: tl, used =>
    if j ∈ used then scan_cluster sim e1 tl used
    else if merge_condition sim e1 e2 then
      let r := scan_cluster sim e1 tl (j :: used)
      (e2 :: r.1, r.2)
    else scan_cluster sim e1 tl used

/-- The outer loop of the clustering: each unused record seeds a cluster,
grows it over the later records, and the cluster is kept when it has at
least two members; a merged record is marked used and can neither seed nor
re-join another cluster. -/
def find_clusters (sim : DbEvent → DbEvent → ℚ) :
    List (ℕ × DbEvent) → List ℕ → List (List DbEvent)
  | [], _ => []
  | (i, e1) :: tl, used =>
    if i ∈ used then find_clusters sim tl used
    else
      let r := scan_cluster sim e1 tl used
      let cluster := e1 :: r.1
      if 2 ≤ cluster.length then cluster :: find_clusters sim tl (i :: r.2)
      else find_clusters sim tl r.2

/-- Decimal rendering of a count, for the interpolated descriptions. -/
def natStr (n : ℕ) : Str := (toString n).toList

/-- Build the repeated-thought finding of one cluster
(`_detect_repeated_thoughts`, loop over `clusters[:3]`).  `theme` is the
external summarization collaborator (`_extract_cluster_theme`), which never
raises (it degrades to a generic label internally).  `list(set(...))` over
the sources is modelled as order-preserving deduplication. -/
def cluster_insight (theme : List Str → Str) (cluster : List DbEvent) : Insight :=
  let titles := cluster.map (fun e => if e.title ≠ [] then e.title else e.content.take 50)
  let sources := (cluster.map (fun e => if e.source = "" then "unknown" else e.source)).eraseDups
  { insight_type := "repeated_thought"
    title := "你最近多次思考同一个主题".toList
    description := ("在过去两周，你在 ".toList ++ (String.intercalate ", " sources).toList
      ++ " 中 ".toList ++ natStr cluster.length
      ++ " 次提到了相似的想法：**".toList ++ theme titles ++ "**".toList)
    evidence := titles.take 3
    suggested_action :=
      "这个主题反复出现，可能值得整理成一篇文章、一个决策文档，或者深入研究一下。".toList
    confidence := 85/100 }

/-- `InsightAgent._detect_repeated_thoughts`: sample guard
(`len(events) < 5` → no findings), keep records with a real embedding
(fewer than 3 → no findings), run the greedy clustering, and report at most
three clusters. -/
def detect_repeated_thoughts (sim : DbEvent → DbEvent → ℚ) (theme : List Str → Str)
    (events : List DbEvent) : List Insight :=
  if events.length < 5 then []
  else
    let with_vectors := events.filter has_real_vector
    if with_vectors.length < 3 then []
    else
      let clusters := find_clusters sim with_vectors.enum []
      (clusters.take 3).map (cluster_insight theme)

/-- The calendar-category counter of `_detect_goal_drift`:
`"calendar" in e.get("event_type", "")`. -/
def is_calendar (e : DbEvent) : Bool := pyContains "calendar".toList e.event_type

/-- The code-category counter of `_detect_goal_drift`. -/
def is_code (e : DbEvent) : Bool := pyContains "code".toList e.event_type

/-- The note-category counter of `_detect_goal_drift`. -/
def is_note (e : DbEvent) : Bool := pyContains "note".toList e.event_type

/-- The single finding `_detect_goal_drift` can emit.  The evidence slices
`e.get("title", ...)` of the first three calendar records; stored rows
always carry the `title` key, so the `content` default is dead. -/
def goal_drift_insight (events : List DbEvent) : Insight :=
  let calendar_events := events.filter is_calendar
  { insight_type := "goal_drift"
    title := "本周计划与执行可能存在落差".toList
    description := ("你本周有 ".toList ++ natStr calendar_events.length
      ++ " 个日历事项，但记录到的代码/笔记活动较少。".toList)
    evidence := (calendar_events.take 3).map (fun e => e.title.take 60)
    suggested_action := "花 5 分钟回顾一下本周目标，看看哪些需要调整或重新排期。".toList
    confidence := 65/100 }

/-- `InsightAgent._detect_goal_drift` over the records of the last 7 days:
more than 3 calendar-category records and fewer than 2 code-plus-note
records emit exactly one finding with confidence 0.65. -/
def detect_goal_drift (events : List DbEvent) : List Insight :=
  if events = [] then []
  else
    let calendar_events := events.filter is_calendar
    let code_events := events.filter is_code
    let note_events := events.filter is_note
    if 3 < calendar_events.length ∧ code_events.length + note_events.length < 2 then
      [goal_drift_insight events]
    else []

/-! ## Embedding service (`core/embedding.py`)

The on-disk cache (one JSON file per key under `embedding_cache/`) is an
association list from cache key to vector; `provider_calls` counts how many
times an embedding was actually computed rather than served from the cache.
The provider chain (Ollama → OpenAI → deterministic offline stub) always
produces some vector, so it is modelled as one total function, and `hash`
models `hashlib.md5(text.encode()).hexdigest()` — the property needs only
that it is a function of the normalized text. -/

structure EmbedState where
  cache : List (String × List ℚ)
  provider_calls : ℕ
deriving DecidableEq

/-- `EmbeddingService._load_cache`: read the key's file if it exists. -/
def load_cache (st : EmbedState) (key : String) : Option (List ℚ) :=
  st.cache.lookup key

/-- `EmbeddingService._save_cache`: write the key's file, replacing any
previous content. -/
def save_cache (st : EmbedState) (key : String) (embedding : List ℚ) : EmbedState :=
  { st with cache := (key, embedding) :: st.cache.filter (fun p => p.1 ≠ key) }

/-- The normalization `text.strip()[:2000]` at the top of
`EmbeddingService.embed`. -/
def embed_normalize (text : Str) : Str := (pyStrip text).take 2000

/-- `EmbeddingService.embed`: normalize; empty text short-circuits to the
zero vector; a cached *truthy* (non-empty) vector is returned without any
provider call (`if cached: return cached`); otherwise the provider computes
the vector, the call counter advances, and the result is cached. -/
def embed (provider : Str → List ℚ) (hash : Str → String)
    (st : EmbedState) (text : Str) : List ℚ × EmbedState :=
  let t := embed_normalize text
  if t = [] then (List.replicate EMBEDDING_DIM 0, st)
  else
    let cache_key := hash t
    let compute :=
      let e := provider t
      (e, save_cache { st with provider_calls := st.provider_calls + 1 } cache_key e)
    match load_cache st cache_key with
    | some cached => if cached ≠ [] then (cached, st) else compute
    | none => compute

/-! ## Concrete instances used to evaluate the definitions -/

/-- A batch embedder that gives every text the vector `[1]`. -/
def ebOne : List Str → List (List ℚ) := fun l => l.map (fun _ => [1])

/-- A connector whose fetch always raises. -/
def plugin_fail : Plugin := ⟨fun _ => Except.error "boom"⟩

/-- A connector whose fetch succeeds with no records. -/
def plugin_empty : Plugin := ⟨fun _ => Except.ok []⟩

/-- A sample event with id `a`. -/
def evA : ContextEvent :=
  { id := "a", source := "s", event_type := [], title := [], content := [], timestamp := 0, embedding := [1] }

/-- A sample event with id `b`. -/
def evB : ContextEvent :=
  { id := "b", source := "s", event_type := [], title := [], content := [], timestamp := 0, embedding := [1] }

/-- A connector that returns only the already-stored event `evA`. -/
def plugin_dupA : Plugin := ⟨fun _ => Except.ok [evA]⟩

/-- A connector that returns the fresh event `evB`. -/
def plugin_newB : Plugin := ⟨fun _ => Except.ok [evB]⟩

/-- A state holding `evA` and a cursor of 100 for plugin `p`. -/
def stA : SyncState := { store := [evA], cursors := [("p", 100)] }

/-- A state with an empty store and a cursor of 5 for plugin `p`. -/
def stClock : SyncState := { store := [], cursors := [("p", 5)] }

/-- Two chronological attempts of plugin `p`: a successful empty fetch at
time 6, then a failing fetch at time 7. -/
def attemptsW : List Attempt :=
  [{ plugin := plugin_empty, embed_batch := ebOne, now := 6 },
   { plugin := plugin_fail, embed_batch := ebOne, now := 7 }]

/-- A similarity function that rates every pair 1. -/
def simOne : DbEvent → DbEvent → ℚ := fun _ _ => 1

/-- A theme collaborator with a constant label. -/
def themeK : List Str → Str := fun _ => "主题".toList

/-- A sample insight-agent record: day `2025-01-01`, source `s1`, with a
real embedding. -/
def dbEv (src : String) (day : Str) : DbEvent :=
  { id := src, source := src, event_type := [], content := [], title := ['t'],
    timestamp := day, vector := [1] }

/-- Four records from four different sources — at least 3 carry a real
embedding, yet the sample is smaller than 5. -/
def evts4 : List DbEvent :=
  [dbEv "s1" "2025-01-01".toList, dbEv "s2" "2025-01-02".toList,
   dbEv "s3" "2025-01-03".toList, dbEv "s4" "2025-01-04".toList]

/-- Five records from five different sources, all with a real embedding. -/
def evts5 : List DbEvent :=
  evts4 ++ [dbEv "s5" "2025-01-05".toList]

/-- A calendar record for the goal-drift examples. -/
def calEv (i : String) : DbEvent :=
  { id := i, source := "gcal", event_type := "calendar.meeting".toList, content := [],
    title := ['c'], timestamp := "2025-01-01".toList, vector := [] }

/-- A code record for the goal-drift examples. -/
def codeEv (i : String) : DbEvent :=
  { id := i, source := "github", event_type := "code.committed".toList, content := [],
    title := ['k'], timestamp := "2025-01-01".toList, vector := [] }

/-- A note record for the goal-drift examples. -/
def noteEv (i : String) : DbEvent :=
  { id := i, source := "md", event_type := "note.created".toList, content := [],
    title := ['n'], timestamp := "2025-01-01".toList, vector := [] }

/-- Goal-drift example: 4 calendar records and 1 code/note record. -/
def driftA : List DbEvent :=
  [calEv "c1", calEv "c2", calEv "c3", calEv "c4", codeEv "k1"]

/-- Goal-drift example: 4 calendar records and 3 code/note records. -/
def driftB : List DbEvent :=
  [calEv "c1", calEv "c2", calEv "c3", calEv "c4", codeEv "k1", codeEv "k2", noteEv "n1"]

/-- A provider that embeds every text as `[1]`. -/
def providerOne : Str → List ℚ := fun _ => [1]

/-- A cache key function with a constant key. -/
def hashK : Str → String := fun _ => "k"

/-- An empty embedding-cache state. -/
def emb0 : EmbedState := { cache := [], provider_calls := 0 }

/-- A sample search-result row carrying distance exactly 0. -/
def rowD : Row := { id := "r", source := "s", timestamp := 0, vector := [], distance := some 0 }

/-- A similarity function with constant value exactly 0.82. -/
def sim82 : DbEvent → DbEvent → ℚ := fun _ _ => 82/100

/-- A similarity function with constant value 0.83. -/
def sim83 : DbEvent → DbEvent → ℚ := fun _ _ => 83/100

/-! ## Lemmas about the store and cursor bookkeeping -/

theorem lookup_filter_ne {β : Type} (b : String) (l : List (String × β)) (a : String)
    (h : a ≠ b) : (l.filter (fun p => p.1 ≠ b)).lookup a = l.lookup a := by
  induction l with
  | nil => rfl
  | cons hd tl ih =>
    rcases hd with ⟨k, v⟩
    by_cases hk : k = b
    · have h1 : List.filter (fun p => decide (p.1 ≠ b)) ((k, v) :: tl)
          = List.filter (fun p => decide (p.1 ≠ b)) tl := by
        rw [List.filter_cons]
        simp [hk]
      have hak : (a == k) = false := beq_eq_false_iff_ne.mpr (by rw [hk]; exact h)
      have h2 : List.lookup a ((k, v) :: tl) = List.lookup a tl := by
        simp [List.lookup, hak]
      rw [h1, h2]
      exact ih
    · have h1 : List.filter (fun p => decide (p.1 ≠ b)) ((k, v) :: tl)
          = (k, v) :: List.filter (fun p => decide (p.1 ≠ b)) tl := by
        rw [List.filter_cons]
        simp [hk]
      rw [h1]
      have ih' := ih
      simp only [ne_eq, decide_not] at ih'
      cases hak : a == k
      · simp [List.lookup, hak, ih']
      · simp [List.lookup, hak]

theorem get_last_sync_update_self (st : SyncState) (n : String) (ts : ℤ) :
    get_last_sync (update_sync_cursor st n ts) n = some ts := by
  simp [get_last_sync, update_sync_cursor, List.lookup]

theorem get_last_sync_update_ne (st : SyncState) (n n' : String) (ts : ℤ) (h : n' ≠ n) :
    get_last_sync (update_sync_cursor st n ts) n' = get_last_sync st n' := by
  have hb : (n' == n) = false := beq_eq_false_iff_ne.mpr h
  have := lookup_filter_ne n st.cursors n' h
  simp only [get_last_sync, update_sync_cursor, List.lookup, hb]
  exact this

theorem cursors_insert_fold (l : List (ContextEvent × List ℚ)) (st : SyncState) :
    ((l.foldl (fun s p => insert_event s { p.1 with embedding := p.2 }) st)).cursors
      = st.cursors := by
  induction l generalizing st with
  | nil => rfl
  | cons hd tl ih =>
    rw [List.foldl_cons]
    exact ih _

theorem store_ids_insert_fold (l : List (ContextEvent × List ℚ)) (st : SyncState) :
    ((l.foldl (fun s p => insert_event s { p.1 with embedding := p.2 }) st)).store.map (fun e => e.id)
      = st.store.map (fun e => e.id) ++ l.map (fun p => p.1.id) := by
  induction l generalizing st with
  | nil => simp
  | cons hd tl ih =>
    rw [List.foldl_cons, ih]
    simp [insert_event]

theorem event_exists_iff (st : SyncState) (eid : String) :
    event_exists st eid = true ↔ eid ∈ st.store.map (fun e => e.id) := by
  simp [event_exists, List.any_eq_true, List.mem_map]

theorem zip_fst_sublist {α β : Type} (l1 : List α) (l2 : List β) :
    ((l1.zip l2).map Prod.fst).Sublist l1 := by
  induction l1 generalizing l2 with
  | nil => simp
  | cons a t1 ih =>
    cases l2 with
    | nil => simp
    | cons b t2 => simpa [List.zip_cons_cons] using (ih t2).cons₂ a

/-! ## Branch equations for single-plugin sync -/

theorem sync_plugin_eq_error (eb : List Str → List (List ℚ)) (now : ℤ) (st : SyncState)
    (n : String) (p : Plugin) (m : String)
    (hm : p.fetch_events ((get_last_sync st n).getD (now - 30)) = Except.error m) :
    sync_plugin eb now st n p = (st, 0) := by
  simp [sync_plugin, hm]

theorem sync_plugin_fail (eb : List Str → List (List ℚ)) (now : ℤ) (st : SyncState)
    (n : String) (p : Plugin) (hfail : ∀ t, ∃ m, p.fetch_events t = Except.error m) :
    sync_plugin eb now st n p = (st, 0) := by
  obtain ⟨m, hm⟩ := hfail ((get_last_sync st n).getD (now - 30))
  exact sync_plugin_eq_error eb now st n p m hm

theorem sync_plugin_eq_empty (eb : List Str → List (List ℚ)) (now : ℤ) (st : SyncState)
    (n : String) (p : Plugin)
    (hok : p.fetch_events ((get_last_sync st n).getD (now - 30)) = Except.ok []) :
    sync_plugin eb now st n p = (st, 0) := by
  simp [sync_plugin, hok]

theorem sync_plugin_eq_nonew (eb : List Str → List (List ℚ)) (now : ℤ) (st : SyncState)
    (n : String) (p : Plugin) (events : List ContextEvent)
    (hok : p.fetch_events ((get_last_sync st n).getD (now - 30)) = Except.ok events)
    (hne : events ≠ [])
    (hfil : events.filter (fun e => !event_exists st e.id) = []) :
    sync_plugin eb now st n p = (update_sync_cursor st n now, 0) := by
  simp [sync_plugin, hok, hne, hfil]

theorem sync_plugin_eq_new (eb : List Str → List (List ℚ)) (now : ℤ) (st : SyncState)
    (n : String) (p : Plugin) (events : List ContextEvent)
    (hok : p.fetch_events ((get_last_sync st n).getD (now - 30)) = Except.ok events)
    (hne : events ≠ [])
    (hfil : events.filter (fun e => !event_exists st e.id) ≠ []) :
    sync_plugin eb now st n p
      = (update_sync_cursor
          (((events.filter (fun e => !event_exists st e.id)).zip
              (eb ((events.filter (fun e => !event_exists st e.id)).map
                (fun e => (e.title ++ [' '] ++ e.content).take 1000)))).foldl
            (fun s p => insert_event s { p.1 with embedding := p.2 }) st)
          n now,
         (events.filter (fun e => !event_exists st e.id)).length) := by
  simp [sync_plugin, hok, hne, hfil]

theorem sync_plugin_cursor_ne (eb : List Str → List (List ℚ)) (now : ℤ) (st : SyncState)
    (n : String) (p : Plugin) (n' : String) (h : n' ≠ n) :
    get_last_sync (sync_plugin eb now st n p).1 n' = get_last_sync st n' := by
  cases hf : p.fetch_events ((get_last_sync st n).getD (now - 30)) with
  | error m => rw [sync_plugin_eq_error eb now st n p m hf]
  | ok events =>
    by_cases he : events = []
    · rw [he] at hf
      rw [sync_plugin_eq_empty eb now st n p hf]
    · by_cases hn : events.filter (fun e => !event_exists st e.id) = []
      · rw [sync_plugin_eq_nonew eb now st n p events hf he hn]
        exact get_last_sync_update_ne _ _ _ _ h
      · rw [sync_plugin_eq_new eb now st n p events hf he hn]
        rw [get_last_sync_update_ne _ _ _ _ h]
        simp [get_last_sync, cursors_insert_fold]

theorem sync_plugin_cursor_self (eb : List Str → List (List ℚ)) (now : ℤ) (st : SyncState)
    (n : String) (p : Plugin) :
    get_last_sync (sync_plugin eb now st n p).1 n = get_last_sync st n
    ∨ get_last_sync (sync_plugin eb now st n p).1 n = some now := by
  cases hf : p.fetch_events ((get_last_sync st n).getD (now - 30)) with
  | error m => rw [sync_plugin_eq_error eb now st n p m hf]; exact Or.inl rfl
  | ok events =>
    by_cases he : events = []
    · rw [he] at hf
      rw [sync_plugin_eq_empty eb now st n p hf]
      exact Or.inl rfl
    · by_cases hn : events.filter (fun e => !event_exists st e.id) = []
      · rw [sync_plugin_eq_nonew eb now st n p events hf he hn]
        exact Or.inr (get_last_sync_update_self _ _ _)
      · rw [sync_plugin_eq_new eb now st n p events hf he hn]
        exact Or.inr (get_last_sync_update_self _ _ _)

/-! ## Lemmas about the multi-plugin fan-out -/

theorem sync_all_append (eb : List Str → List (List ℚ)) (now : ℤ) (st : SyncState)
    (l1 l2 : List (String × Plugin)) :
    sync_all_plugins eb now st (l1 ++ l2)
      = ((sync_all_plugins eb now (sync_all_plugins eb now st l1).1 l2).1,
         (sync_all_plugins eb now st l1).2
           ++ (sync_all_plugins eb now (sync_all_plugins eb now st l1).1 l2).2) := by
  induction l1 generalizing st with
  | nil => simp [sync_all_plugins]
  | cons hd tl ih =>
    rcases hd with ⟨n, p⟩
    simp [sync_all_plugins, ih]

theorem sync_all_cursor_not_mem (eb : List Str → List (List ℚ)) (now : ℤ) (st : SyncState)
    (l : List (String × Plugin)) (n : String) (h : n ∉ l.map Prod.fst) :
    get_last_sync (sync_all_plugins eb now st l).1 n = get_last_sync st n := by
  induction l generalizing st with
  | nil => rfl
  | cons hd tl ih =>
    rcases hd with ⟨nm, p⟩
    simp only [List.map_cons, List.mem_cons, not_or] at h
    rw [show sync_all_plugins eb now st ((nm, p) :: tl)
          = ((sync_all_plugins eb now (sync_plugin eb now st nm p).1 tl).1,
             (sync_plugin eb now st nm p).2
               :: (sync_all_plugins eb now (sync_plugin eb now st nm p).1 tl).2) from rfl]
    rw [ih _ h.2, sync_plugin_cursor_ne _ _ _ _ _ _ h.1]


/-! ## Chain helpers for cursor monotonicity -/

theorem trace_head (plugin_name : String) (st : SyncState) (l : List Attempt) :
    (cursor_trace plugin_name st l).head? = some (get_last_sync st plugin_name) := by
  cases l <;> rfl

theorem chain_lower {c x : ℤ} {l : List ℤ} (h : c ≤ x)
    (hc : List.Chain' (· ≤ ·) (x :: l)) : List.Chain' (· ≤ ·) (c :: l) := by
  cases l with
  | nil => simp
  | cons y tl =>
    rw [List.chain'_cons] at hc ⊢
    exact ⟨le_trans h hc.1, hc.2⟩

theorem cursorLe_refl (a : Option ℤ) : cursorLe a a := fun x hx => ⟨x, hx, le_refl x⟩

/-- Claim C1: in a multi-connector sync run, a connector whose fetch raises
is isolated: the run's final state is the same as if the failing connector
were absent, the failing attempt contributes a zero count to the aggregate
(so the aggregate total is unchanged), and — when no sibling shares its
name — the failing connector's cursor is exactly what it was before the
run. -/
theorem C1_connector_failure_isolated
    (eb : List Str → List (List ℚ)) (now : ℤ) (st : SyncState)
    (pre post : List (String × Plugin)) (nameF : String) (pF : Plugin)
    (hfail : ∀ t, ∃ m, pF.fetch_events t = Except.error m) :
    (sync_all_plugins eb now st (pre ++ (nameF, pF) :: post)).1
        = (sync_all_plugins eb now st (pre ++ post)).1
    ∧ (sync_all_plugins eb now st (pre ++ (nameF, pF) :: post)).2
        = (sync_all_plugins eb now st pre).2
            ++ 0 :: (sync_all_plugins eb now (sync_all_plugins eb now st pre).1 post).2
    ∧ ((sync_all_plugins eb now st (pre ++ (nameF, pF) :: post)).2).sum
        = ((sync_all_plugins eb now st (pre ++ post)).2).sum
    ∧ (nameF ∉ pre.map Prod.fst → nameF ∉ post.map Prod.fst →
        get_last_sync (sync_all_plugins eb now st (pre ++ (nameF, pF) :: post)).1 nameF
          = get_last_sync st nameF) := by
  have hmid : ∀ s : SyncState, sync_all_plugins eb now s ((nameF, pF) :: post)
      = ((sync_all_plugins eb now s post).1, 0 :: (sync_all_plugins eb now s post).2) := by
    intro s
    simp [sync_all_plugins, sync_plugin_fail eb now s nameF pF hfail]
  have hfull : sync_all_plugins eb now st (pre ++ (nameF, pF) :: post)
      = ((sync_all_plugins eb now (sync_all_plugins eb now st pre).1 post).1,
         (sync_all_plugins eb now st pre).2
           ++ 0 :: (sync_all_plugins eb now (sync_all_plugins eb now st pre).1 post).2) := by
    rw [sync_all_append, hmid]
  have hwo : sync_all_plugins eb now st (pre ++ post)
      = ((sync_all_plugins eb now (sync_all_plugins eb now st pre).1 post).1,
         (sync_all_plugins eb now st pre).2
           ++ (sync_all_plugins eb now (sync_all_plugins eb now st pre).1 post).2) :=
    sync_all_append eb now st pre post
  refine ⟨?_, ?_, ?_, ?_⟩
  · rw [hfull, hwo]
  · rw [hfull]
  · rw [hfull, hwo]
    simp
  · intro h1 h2
    rw [hfull]
    show get_last_sync (sync_all_plugins eb now (sync_all_plugins eb now st pre).1 post).1 nameF
      = get_last_sync st nameF
    rw [sync_all_cursor_not_mem eb now _ post nameF h2,
        sync_all_cursor_not_mem eb now st pre nameF h1]

/-- Witness for C1 at a concrete three-connector run whose middle connector
always raises. -/
theorem C1_witness :
    (sync_all_plugins ebOne 200 stA ([("q", plugin_newB)] ++ ("p2", plugin_fail) :: [("r", plugin_empty)])).1
      = (sync_all_plugins ebOne 200 stA ([("q", plugin_newB)] ++ [("r", plugin_empty)])).1
    ∧ get_last_sync (sync_all_plugins ebOne 200 stA
        ([("q", plugin_newB)] ++ ("p2", plugin_fail) :: [("r", plugin_empty)])).1 "p2"
      = get_last_sync stA "p2" := by
  have h := C1_connector_failure_isolated ebOne 200 stA [("q", plugin_newB)]
    [("r", plugin_empty)] "p2" plugin_fail (fun t => ⟨"boom", rfl⟩)
  exact ⟨h.1, h.2.2.2 (by decide) (by decide)⟩

/-- Claim C2: a failing fetch leaves the cursor table untouched, and over
any sequence of attempts whose wall-clock times are chronological (each
attempt's `now` is at or after the stored cursor and after the previous
attempt), the observed cursor values never decrease. -/
theorem C2_cursor_monotone (plugin_name : String) :
    (∀ (st : SyncState) (p : Plugin) (eb : List Str → List (List ℚ)) (now : ℤ),
        (∀ t, ∃ m, p.fetch_events t = Except.error m) →
        sync_plugin eb now st plugin_name p = (st, 0))
    ∧ (∀ (attempts : List Attempt) (st : SyncState),
        List.Chain' (· ≤ ·)
          ((get_last_sync st plugin_name).toList ++ attempts.map (fun a => a.now)) →
        List.Chain' cursorLe (cursor_trace plugin_name st attempts)) := by
  constructor
  · intro st p eb now hfail
    exact sync_plugin_fail eb now st plugin_name p hfail
  · intro attempts
    induction attempts with
    | nil =>
      intro st _
      exact List.chain'_singleton _
    | cons a tl ih =>
      intro st hchain
      rw [cursor_trace, List.chain'_cons']
      have hstep := sync_plugin_cursor_self a.embed_batch a.now st plugin_name a.plugin
      constructor
      · intro y hy
        rw [trace_head] at hy
        have hy' : y = get_last_sync
            (sync_plugin a.embed_batch a.now st plugin_name a.plugin).1 plugin_name :=
          (Option.mem_some_iff.mp hy).symm
        rw [hy']
        rcases hstep with h | h
        · rw [h]
          exact cursorLe_refl _
        · rw [h]
          intro x hx
          refine ⟨a.now, rfl, ?_⟩
          rw [hx] at hchain
          simp only [Option.toList_some, List.cons_append, List.map_cons] at hchain
          exact (List.chain'_cons.mp hchain).1
      · apply ih
        rcases hstep with h | h
        · rw [h]
          cases hc0 : get_last_sync st plugin_name with
          | none =>
            rw [hc0] at hchain
            simp only [Option.toList_none, List.nil_append, List.map_cons] at hchain
            simpa using hchain.tail
          | some c =>
            rw [hc0] at hchain
            simp only [Option.toList_some, List.cons_append, List.map_cons] at hchain
            have h1 := (List.chain'_cons.mp hchain).1
            have h2 := (List.chain'_cons.mp hchain).2
            simp only [Option.toList_some, List.cons_append, List.nil_append]
            cases htl : tl.map (fun a => a.now) with
            | nil => simp
            | cons n rest =>
              rw [htl] at h2
              rw [List.chain'_cons] at h2 ⊢
              exact ⟨le_trans h1 h2.1, h2.2⟩
        · rw [h]
          simp only [Option.toList_some, List.cons_append]
          cases hc0 : get_last_sync st plugin_name with
          | none =>
            rw [hc0] at hchain
            simpa using hchain
          | some c =>
            rw [hc0] at hchain
            simp only [Option.toList_some, List.cons_append, List.map_cons] at hchain
            exact (List.chain'_cons.mp hchain).2

/-- Witness for C2: a failing fetch at time 7 leaves the state unchanged,
and the cursor trace of a chronological empty-fetch-then-failure run is
non-decreasing. -/
theorem C2_witness :
    sync_plugin ebOne 7 stClock "p" plugin_fail = (stClock, 0)
    ∧ List.Chain' cursorLe (cursor_trace "p" stClock attemptsW) :=
  ⟨(C2_cursor_monotone "p").1 stClock plugin_fail ebOne 7 (fun t => ⟨"boom", rfl⟩),
   (C2_cursor_monotone "p").2 attemptsW stClock
     (by simp [attemptsW, stClock, get_last_sync, List.lookup, plugin_empty, plugin_fail,
               List.chain'_cons, List.chain'_singleton])⟩


/-- Claim C3 counterexample: with a stored cursor of 100, an attempt at
time 200 whose fetch succeeds with *no* records returns a zero count but
leaves the cursor at 100 — it is not advanced to the current time, contrary
to the claim's "including the case where the fetch itself returns no
records". -/
theorem C3_counterexample :
    (sync_plugin ebOne 200 stA "p" plugin_empty).2 = 0
    ∧ get_last_sync (sync_plugin ebOne 200 stA "p" plugin_empty).1 "p" = some 100
    ∧ ¬ get_last_sync (sync_plugin ebOne 200 stA "p" plugin_empty).1 "p" = some 200 := by
  decide

/-- Claim C3 (amended): when the fetch succeeds with a *non-empty* batch
and every fetched record is already stored (zero new records after dedup),
the attempt is a success and the cursor is advanced to the current time;
when the fetch succeeds with *no* records, the attempt returns a zero count
and the state — the cursor included — is left unchanged. -/
theorem C3_amended_zero_new_records
    (eb : List Str → List (List ℚ)) (now : ℤ) (st : SyncState) (plugin_name : String)
    (p : Plugin) (events : List ContextEvent)
    (hok : p.fetch_events ((get_last_sync st plugin_name).getD (now - 30)) = Except.ok events) :
    (events ≠ [] → (∀ e ∈ events, event_exists st e.id = true) →
        sync_plugin eb now st plugin_name p = (update_sync_cursor st plugin_name now, 0)
        ∧ get_last_sync (sync_plugin eb now st plugin_name p).1 plugin_name = some now)
    ∧ (events = [] → sync_plugin eb now st plugin_name p = (st, 0)) := by
  constructor
  · intro hne hall
    have hfil : events.filter (fun e => !event_exists st e.id) = [] := by
      rw [List.filter_eq_nil_iff]
      intro e he
      simp [hall e he]
    have h := sync_plugin_eq_nonew eb now st plugin_name p events hok hne hfil
    refine ⟨h, ?_⟩
    rw [h]
    exact get_last_sync_update_self _ _ _
  · intro he
    rw [he] at hok
    exact sync_plugin_eq_empty eb now st plugin_name p hok

/-- Witness for C3 (amended): a connector that re-serves the stored event
advances the cursor to 200 with a zero count; a connector that serves
nothing leaves the state alone. -/
theorem C3_witness :
    (sync_plugin ebOne 200 stA "p" plugin_dupA = (update_sync_cursor stA "p" 200, 0)
      ∧ get_last_sync (sync_plugin ebOne 200 stA "p" plugin_dupA).1 "p" = some 200)
    ∧ sync_plugin ebOne 200 stA "p" plugin_empty = (stA, 0) :=
  ⟨(C3_amended_zero_new_records ebOne 200 stA "p" plugin_dupA [evA] rfl).1
      (by decide) (by decide),
   (C3_amended_zero_new_records ebOne 200 stA "p" plugin_empty [] rfl).2 rfl⟩

/-- Claim C4 counterexample: re-inserting the already-stored record `evA`
grows the store from 1 row to 2 — `insert_event` appends, it does not
replace, so the store size does not stay unchanged. -/
theorem C4_counterexample :
    (insert_event stA evA).store.length = 2 ∧ ¬ (insert_event stA evA).store.length = 1 := by
  decide

/-- Claim C4 (amended): `insert_event` appends unconditionally, so every
insert — an existing id included — grows the store by exactly one row; id
uniqueness is instead an invariant of the sync pipeline, which inserts only
records whose ids are absent, so a sync attempt whose fetch returns
records with pairwise-distinct ids preserves uniqueness of the stored
ids. -/
theorem C4_amended_insert_semantics :
    (∀ (st : SyncState) (e : ContextEvent),
        (insert_event st e).store.length = st.store.length + 1)
    ∧ (∀ (eb : List Str → List (List ℚ)) (now : ℤ) (st : SyncState) (plugin_name : String)
        (p : Plugin) (events : List ContextEvent),
        p.fetch_events ((get_last_sync st plugin_name).getD (now - 30)) = Except.ok events →
        (st.store.map (fun e => e.id)).Nodup →
        (events.map (fun e => e.id)).Nodup →
        ((sync_plugin eb now st plugin_name p).1.store.map (fun e => e.id)).Nodup) := by
  constructor
  · intro st e
    simp [insert_event]
  · intro eb now st plugin_name p events hok hst hev
    by_cases he : events = []
    · rw [he] at hok
      rw [sync_plugin_eq_empty eb now st plugin_name p hok]
      exact hst
    · by_cases hfil : events.filter (fun e => !event_exists st e.id) = []
      · rw [sync_plugin_eq_nonew eb now st plugin_name p events hok he hfil]
        exact hst
      · rw [sync_plugin_eq_new eb now st plugin_name p events hok he hfil]
        have hupd : ∀ (X : SyncState), (update_sync_cursor X plugin_name now).store = X.store :=
          fun X => rfl
        rw [show ((update_sync_cursor
              (((events.filter (fun e => !event_exists st e.id)).zip
                  (eb ((events.filter (fun e => !event_exists st e.id)).map
                    (fun e => (e.title ++ [' '] ++ e.content).take 1000)))).foldl
                (fun s p => insert_event s { p.1 with embedding := p.2 }) st)
              plugin_name now,
             (events.filter (fun e => !event_exists st e.id)).length) :
              SyncState × ℕ).1.store
            = (((events.filter (fun e => !event_exists st e.id)).zip
                  (eb ((events.filter (fun e => !event_exists st e.id)).map
                    (fun e => (e.title ++ [' '] ++ e.content).take 1000)))).foldl
                (fun s p => insert_event s { p.1 with embedding := p.2 }) st).store from rfl]
        rw [store_ids_insert_fold]
        rw [List.nodup_append]
        have hsub1 : (((events.filter (fun e => !event_exists st e.id)).zip
            (eb ((events.filter (fun e => !event_exists st e.id)).map
              (fun e => (e.title ++ [' '] ++ e.content).take 1000)))).map Prod.fst).Sublist
            (events.filter (fun e => !event_exists st e.id)) :=
          zip_fst_sublist _ _
        have hsub2 : ((((events.filter (fun e => !event_exists st e.id)).zip
            (eb ((events.filter (fun e => !event_exists st e.id)).map
              (fun e => (e.title ++ [' '] ++ e.content).take 1000)))).map Prod.fst).map
              (fun e => e.id)).Sublist (events.map (fun e => e.id)) :=
          (hsub1.trans (List.filter_sublist events)).map (fun e => e.id)
        have hmapmap : (((events.filter (fun e => !event_exists st e.id)).zip
            (eb ((events.filter (fun e => !event_exists st e.id)).map
              (fun e => (e.title ++ [' '] ++ e.content).take 1000)))).map
                (fun p => p.1.id))
            = ((((events.filter (fun e => !event_exists st e.id)).zip
                (eb ((events.filter (fun e => !event_exists st e.id)).map
                  (fun e => (e.title ++ [' '] ++ e.content).take 1000)))).map Prod.fst).map
                  (fun e => e.id)) := by
          rw [List.map_map]
          rfl
        refine ⟨hst, ?_, ?_⟩
        · rw [hmapmap]
          exact hev.sublist hsub2
        · intro x hx1 hx2
          rw [hmapmap] at hx2
          rcases List.mem_map.mp hx2 with ⟨e, hemem, heid⟩
          have hefil : e ∈ events.filter (fun e => !event_exists st e.id) :=
            hsub1.subset hemem
          have := (List.mem_filter.mp hefil).2
          have hfalse : event_exists st e.id = false := by
            simpa using this
          have : e.id ∈ st.store.map (fun e => e.id) := heid ▸ hx1
          rw [(event_exists_iff st e.id).mpr this] at hfalse
          cases hfalse

/-- Witness for C4 (amended) at a concrete insert and a concrete sync of a
fresh record. -/
theorem C4_witness :
    (insert_event stA evB).store.length = stA.store.length + 1
    ∧ ((sync_plugin ebOne 200 stA "p" plugin_newB).1.store.map (fun e => e.id)).Nodup :=
  ⟨C4_amended_insert_semantics.1 stA evB,
   C4_amended_insert_semantics.2 ebOne 200 stA "p" plugin_newB [evB] rfl
     (by decide) (by decide)⟩


/-- Claim C5 counterexample: a candidate carrying distance exactly 0 does
*not* receive semantic score 1 — the Python `or 0.5` treats the falsy 0.0
like an absent distance, so the score is 0.5. -/
theorem C5_counterexample :
    semantic_score (some 0) = 1/2 ∧ ¬ semantic_score (some 0) = 1 := by
  constructor
  · norm_num [semantic_score]
  · norm_num [semantic_score]

/-- Claim C5 (amended): the ranking score is
`final_score = 0.7 * semantic_score + 0.3 * exp(-0.05 * age_days)` with
`semantic_score = 1 - distance`, where the distance falls back to `0.5`
both when absent and when it is exactly `0` (Python falsiness); in
particular a candidate carrying distance exactly 0 receives semantic
score 0.5. -/
theorem C5_amended_scoring_formula (now : ℤ) (r : Row) :
    final_score now r
      = (semantic_score r.distance : ℝ) * 0.7
        + Real.exp (-(0.05 : ℝ) * ((max 0 (now - r.timestamp) : ℤ) : ℝ)) * 0.3
    ∧ semantic_score none = 1/2
    ∧ semantic_score (some 0) = 1/2
    ∧ (∀ x : ℚ, x ≠ 0 → semantic_score (some x) = 1 - x) := by
  refine ⟨rfl, by norm_num [semantic_score], by norm_num [semantic_score], ?_⟩
  intro x hx
  simp [semantic_score, hx]

/-- Witness for C5 (amended) at the concrete row with distance 0 and at a
non-zero distance of 2. -/
theorem C5_witness :
    final_score 0 rowD
      = (semantic_score rowD.distance : ℝ) * 0.7
        + Real.exp (-(0.05 : ℝ) * ((max 0 (0 - rowD.timestamp) : ℤ) : ℝ)) * 0.3
    ∧ semantic_score (some 2) = 1 - 2 :=
  ⟨(C5_amended_scoring_formula 0 rowD).1,
   (C5_amended_scoring_formula 0 rowD).2.2.2 2 (by simp)⟩

/-- Claim C10: a query that is empty or whitespace-only takes the
pure-recency path with the fixed 7-day window, whatever the values of the
day and source filter arguments — both are ignored on this path. -/
theorem C10_blank_query_recency (store : List Row)
    (vector_search : List ℚ → ℕ → List Row) (embed_query : Str → List ℚ)
    (now : ℤ) (query : Str) (limit : ℕ)
    (hq : pyStrip query = []) :
    ∀ (days_filter : Option ℤ) (source_filter : Option String),
      retrieve store vector_search embed_query now query limit days_filter source_filter
        = get_recent_events store now 7 limit := by
  intro df sf
  simp [retrieve, hq]

/-- Witness for C10 at a whitespace query with both filters set. -/
theorem C10_witness :
    retrieve [rowD] (fun _ _ => []) (fun _ => []) 0 [' '] 10 (some 3) (some "x")
      = get_recent_events [rowD] 0 7 10 :=
  C10_blank_query_recency [rowD] (fun _ _ => []) (fun _ => []) 0 [' '] 10 (by decide)
    (some 3) (some "x")


/-- Claim C6: in the greedy clustering's inner scan, a later unclustered
record is merged into the current cluster exactly when `merge_condition`
holds — similarity strictly above 0.82 and a differing source or calendar
day; a pair with similarity exactly 0.82 never satisfies the merge rule,
and a pair with similarity 0.83 from differing sources always does. -/
theorem C6_merge_rule (sim : DbEvent → DbEvent → ℚ) :
    (∀ (e1 : DbEvent) (rest : List (ℕ × DbEvent)) (used : List ℕ),
        (rest.map Prod.fst).Nodup →
        (scan_cluster sim e1 rest used).1
          = (rest.filter
              (fun q => decide (q.1 ∉ used) && merge_condition sim e1 q.2)).map Prod.snd)
    ∧ (∀ e1 e2, sim e1 e2 = 82/100 → merge_condition sim e1 e2 = false)
    ∧ (∀ e1 e2, sim e1 e2 = 83/100 → e1.source ≠ e2.source →
        merge_condition sim e1 e2 = true) := by
  refine ⟨?_, ?_, ?_⟩
  · intro e1 rest
    induction rest with
    | nil =>
      intro used _
      rfl
    | cons hd tl ih =>
      intro used hnd
      rcases hd with ⟨j, e2⟩
      have hjtl : j ∉ tl.map Prod.fst := by
        simp only [List.map_cons, List.nodup_cons] at hnd
        exact hnd.1
      have hndtl : (tl.map Prod.fst).Nodup := by
        simp only [List.map_cons, List.nodup_cons] at hnd
        exact hnd.2
      by_cases hj : j ∈ used
      · rw [show scan_cluster sim e1 ((j, e2) :: tl) used = scan_cluster sim e1 tl used from by
            rw [scan_cluster, if_pos hj]]
        rw [List.filter_cons]
        have : (decide (j ∉ used) && merge_condition sim e1 e2) = false := by
          simp [hj]
        rw [this]
        simp only [Bool.false_eq_true, if_false]
        exact ih used hndtl
      · by_cases hm : merge_condition sim e1 e2 = true
        · rw [show scan_cluster sim e1 ((j, e2) :: tl) used
              = (e2 :: (scan_cluster sim e1 tl (j :: used)).1,
                 (scan_cluster sim e1 tl (j :: used)).2) from by
              rw [scan_cluster, if_neg hj, if_pos hm]]
          rw [List.filter_cons]
          have hcond : (decide (j ∉ used) && merge_condition sim e1 e2) = true := by
            simp [hj, hm]
          rw [hcond]
          simp only [if_true, List.map_cons]
          have hfe : tl.filter (fun q => decide (q.1 ∉ j :: used) && merge_condition sim e1 q.2)
              = tl.filter (fun q => decide (q.1 ∉ used) && merge_condition sim e1 q.2) := by
            apply List.filter_congr
            intro q hq
            have hqj : q.1 ≠ j := by
              intro hEq
              exact hjtl (hEq ▸ List.mem_map_of_mem Prod.fst hq)
            simp [List.mem_cons, hqj]
          rw [ih (j :: used) hndtl, hfe]
        · rw [show scan_cluster sim e1 ((j, e2) :: tl) used = scan_cluster sim e1 tl used from by
              rw [scan_cluster, if_neg hj, if_neg hm]]
          rw [List.filter_cons]
          have : (decide (j ∉ used) && merge_condition sim e1 e2) = false := by
            simp [hj, Bool.eq_false_iff.mpr hm]
          rw [this]
          simp only [Bool.false_eq_true, if_false]
          exact ih used hndtl
  · intro e1 e2 h
    have hlt : ¬ ((82 : ℚ)/100 < sim e1 e2) := by
      rw [h]
      exact lt_irrefl _
    simp [merge_condition, hlt]
  · intro e1 e2 h hs
    have hlt : (82 : ℚ)/100 < sim e1 e2 := by
      rw [h]
      norm_num
    simp [merge_condition, hlt, hs]

/-- Witness for C6 at constant similarity functions of value exactly 0.82
and 0.83 and a concrete one-candidate scan. -/
theorem C6_witness :
    (scan_cluster sim82 (dbEv "s1" "2025-01-01".toList)
        [(0, dbEv "s2" "2025-01-02".toList)] []).1
      = ([(0, dbEv "s2" "2025-01-02".toList)].filter
          (fun q => decide (q.1 ∉ ([] : List ℕ))
            && merge_condition sim82 (dbEv "s1" "2025-01-01".toList) q.2)).map Prod.snd
    ∧ merge_condition sim82 (dbEv "s1" "2025-01-01".toList) (dbEv "s2" "2025-01-02".toList)
        = false
    ∧ merge_condition sim83 (dbEv "s1" "2025-01-01".toList) (dbEv "s2" "2025-01-02".toList)
        = true :=
  ⟨(C6_merge_rule sim82).1 (dbEv "s1" "2025-01-01".toList)
      [(0, dbEv "s2" "2025-01-02".toList)] [] (by decide),
   (C6_merge_rule sim82).2.1 _ _ rfl,
   (C6_merge_rule sim83).2.2 _ _ rfl (by decide)⟩


/-- Claim C7 counterexample: a sample of 4 records that all carry a real
(non-zero) embedding — at least 3, as the claim requires — still hits the
`len(events) < 5` guard: the analyzer returns the empty insufficient-data
result even though the clustering it skips would have produced a cluster. -/
theorem C7_counterexample :
    (evts4.filter has_real_vector).length = 4
    ∧ detect_repeated_thoughts simOne themeK evts4 = []
    ∧ find_clusters simOne (evts4.filter has_real_vector).enum [] ≠ [] := by
  refine ⟨by simp [evts4, dbEv, has_real_vector], ?_, ?_⟩
  · simp [detect_repeated_thoughts, evts4, dbEv]
  · have hmc : ∀ a b : DbEvent, a.source ≠ b.source → merge_condition simOne a b = true := by
      intro a b hab
      have hlt : (82 : ℚ)/100 < 1 := by norm_num
      simp [merge_condition, simOne, hlt, hab]
    have hfe : evts4.filter has_real_vector = evts4 := by
      simp [evts4, dbEv, has_real_vector]
    rw [hfe]
    simp only [evts4, List.enum]
    simp [find_clusters, scan_cluster, hmc, dbEv, List.enumFrom]

/-- Claim C7 (amended): the analyzer proceeds to clustering exactly when
the sample holds at least 5 records *and* at least 3 of them carry a real
(non-zero) embedding; it returns the empty insufficient-data result when
the sample has fewer than 5 records — even if 3 or more of them carry a
real embedding — or when fewer than 3 records have a real embedding. -/
theorem C7_amended_sample_guard (sim : DbEvent → DbEvent → ℚ) (theme : List Str → Str)
    (events : List DbEvent) :
    (¬ events.length < 5 → ¬ (events.filter has_real_vector).length < 3 →
        detect_repeated_thoughts sim theme events
          = ((find_clusters sim (events.filter has_real_vector).enum []).take 3).map
              (cluster_insight theme))
    ∧ (events.length < 5 ∨ (events.filter has_real_vector).length < 3 →
        detect_repeated_thoughts sim theme events = []) := by
  constructor
  · intro h5 h3
    simp [detect_repeated_thoughts, h5, h3]
  · intro h
    rcases h with h | h
    · simp [detect_repeated_thoughts, h]
    · by_cases h5 : events.length < 5
      · simp [detect_repeated_thoughts, h5]
      · simp [detect_repeated_thoughts, h5, h]

/-- Witness for C7 (amended): five fully embedded records pass both guards
and reach the clustering; the four-record sample is rejected. -/
theorem C7_witness :
    detect_repeated_thoughts simOne themeK evts5
      = ((find_clusters simOne (evts5.filter has_real_vector).enum []).take 3).map
          (cluster_insight themeK)
    ∧ detect_repeated_thoughts simOne themeK evts4 = [] :=
  ⟨(C7_amended_sample_guard simOne themeK evts5).1 (by decide)
      (by simp [evts5, evts4, dbEv, has_real_vector]),
   (C7_amended_sample_guard simOne themeK evts4).2 (Or.inl (by decide))⟩


/-- Claim C8: over the records of the last 7 days, the goal-drift analyzer
emits exactly one finding — with fixed confidence 0.65 — precisely when
more than 3 records are calendar-category and fewer than 2 are
code-plus-note-category, and emits nothing otherwise; 4 calendar plus 1
code record yield exactly one finding, 4 calendar plus 3 code/note records
yield none. -/
theorem C8_goal_drift_rule :
    (∀ events : List DbEvent,
      detect_goal_drift events
        = if 3 < (events.filter is_calendar).length
             ∧ (events.filter is_code).length + (events.filter is_note).length < 2
          then [goal_drift_insight events] else [])
    ∧ (∀ events : List DbEvent,
        (detect_goal_drift events).all (fun i => decide (i.confidence = 65/100)) = true)
    ∧ (detect_goal_drift driftA).length = 1
    ∧ detect_goal_drift driftB = [] := by
  have h1 : ∀ events : List DbEvent,
      detect_goal_drift events
        = if 3 < (events.filter is_calendar).length
             ∧ (events.filter is_code).length + (events.filter is_note).length < 2
          then [goal_drift_insight events] else [] := by
    intro events
    by_cases he : events = []
    · subst he
      simp [detect_goal_drift]
    · simp [detect_goal_drift, he]
  refine ⟨h1, ?_, by decide, by decide⟩
  intro events
  rw [h1]
  by_cases hc : 3 < (events.filter is_calendar).length
      ∧ (events.filter is_code).length + (events.filter is_note).length < 2
  · rw [if_pos hc]
    simp only [List.all_cons, List.all_nil, Bool.and_true, decide_eq_true_eq]
    rfl
  · rw [if_neg hc]
    rfl

/-- Claim C9: embedding two texts that normalize to the same non-empty
string, starting from a cache that does not yet hold that key, issues
exactly one provider call: the first `embed` advances the call counter by
one and caches the vector, the second returns the same vector and leaves
the state — counter included — untouched. -/
theorem C9_embed_cache_single_call
    (provider : Str → List ℚ) (hash : Str → String) (st : EmbedState) (t1 t2 : Str)
    (hnorm : embed_normalize t1 = embed_normalize t2)
    (hne : embed_normalize t1 ≠ [])
    (hcold : load_cache st (hash (embed_normalize t1)) = none)
    (hprov : provider (embed_normalize t1) ≠ []) :
    (embed provider hash st t1).2.provider_calls = st.provider_calls + 1
    ∧ (embed provider hash (embed provider hash st t1).2 t2).2
        = (embed provider hash st t1).2
    ∧ (embed provider hash (embed provider hash st t1).2 t2).1
        = (embed provider hash st t1).1 := by
  have h1 : embed provider hash st t1
      = (provider (embed_normalize t1),
         save_cache { st with provider_calls := st.provider_calls + 1 }
           (hash (embed_normalize t1)) (provider (embed_normalize t1))) := by
    simp [embed, hne, hcold]
  have hne2 : embed_normalize t2 ≠ [] := hnorm ▸ hne
  have hlook : load_cache
      (save_cache { st with provider_calls := st.provider_calls + 1 }
        (hash (embed_normalize t1)) (provider (embed_normalize t1)))
      (hash (embed_normalize t2)) = some (provider (embed_normalize t1)) := by
    rw [← hnorm]
    simp [load_cache, save_cache, List.lookup]
  have h2 : embed provider hash (embed provider hash st t1).2 t2
      = (provider (embed_normalize t1), (embed provider hash st t1).2) := by
    rw [h1]
    simp [embed, hne2, hlook, hprov]
  refine ⟨?_, ?_, ?_⟩
  · rw [h1]
    rfl
  · rw [h2]
  · rw [h2, h1]

/-- Witness for C9: embedding `" a"` and then `"a "` (both normalize to
`"a"`) against an empty cache issues one provider call and serves the
second request from the cache. -/
theorem C9_witness :
    (embed providerOne hashK emb0 (" a").toList).2.provider_calls = emb0.provider_calls + 1
    ∧ (embed providerOne hashK (embed providerOne hashK emb0 (" a").toList).2 ("a ").toList).2
        = (embed providerOne hashK emb0 (" a").toList).2
    ∧ (embed providerOne hashK (embed providerOne hashK emb0 (" a").toList).2 ("a ").toList).1
        = (embed providerOne hashK emb0 (" a").toList).1 :=
  C9_embed_cache_single_call providerOne hashK emb0 (" a").toList ("a ").toList
    (by decide) (by decide) rfl (by decide)

end LifeOS
